import Mathlib

/- Shallow embedding of the waktu-solat-mcp server:
   - `api.py`  : the `WaktuSolatAPI` HTTP client (URL-keyed response cache,
                 error raising on non-200 statuses, zone-shape normalization).
   - `server.py`: the four MCP tool handlers (`list_zones`,
                 `get_prayer_times_today`, `get_prayer_times_month`,
                 `get_next_prayer`) and their text formatting.

   Conventions of the embedding:
   - JSON values are the inductive `JVal`; upstream HTTP outcomes are given by
     an oracle `Nat → String → FetchOutcome` indexed by the number of network
     calls already issued by the client instance.
   - Python exceptions that the tool code can raise past its own boundary are
     the `PyExn` type; a tool returning `Except.error` models an uncaught
     exception escaping the tool.
   - `datetime.now(tz=MYT)` is modelled by an integer Unix timestamp `now`
     passed explicitly; MYT is the fixed offset UTC+8 (28800 seconds), exactly
     as `timezone(timedelta(hours=8))` in the source.
   - Python `str.upper()` / `str.strip()` are modelled on ASCII (zone and
     state codes are ASCII); Python integer floor division/modulo are
     `Int.ediv` / `Int.emod` (both round toward negative infinity for the
     positive divisors used here). -/

/-- JSON values as produced by `response.json()` on the upstream API. -/
inductive JVal where
  | null
  | bool (b : Bool)
  | num (n : Int)
  | str (s : String)
  | arr (elems : List JVal)
  | obj (fields : List (String × JVal))

/-- Key lookup in a JSON object's field list (Python `d[k]` / `k in d`). -/
def jLookup : List (String × JVal) → String → Option JVal
  | [], _ => none
  | (k, v) :: rest, u => if k = u then some v else jLookup rest u

/-- Python `dict.get(k)` on a JSON value: `none` when the key is missing.
    (The tool code only calls `.get` on dicts; other shapes are outside the
    paths exercised here.) -/
def jGet (j : JVal) (k : String) : Option JVal :=
  match j with
  | .obj fs => jLookup fs k
  | _ => none

/-- Python truthiness of a JSON value (`if x:`). -/
def jTruthy : JVal → Bool
  | .null => false
  | .bool b => b
  | .num n => n != 0
  | .str s => s != ""
  | .arr xs => !xs.isEmpty
  | .obj fs => !fs.isEmpty

/-- Python truthiness of an optional integer, as used by
    `if p.get("fajr")` and `if tomorrow_entry.get("fajr")`:
    missing (`None`) and `0` are both falsy. -/
def truthyOptInt : Option Int → Bool
  | none => false
  | some v => v != 0

/-- Python whitespace characters stripped by `str.strip()` (ASCII subset;
    zone codes are ASCII). -/
def isPySpace (c : Char) : Bool :=
  c == ' ' || c == '\t' || c == '\n' || c == '\r' || c == '\x0b' || c == '\x0c'

/-- Python `str.strip()`: remove leading and trailing whitespace. -/
def pyStrip (s : String) : String :=
  String.mk (((s.data.dropWhile isPySpace).reverse.dropWhile isPySpace).reverse)

/-- Python `str.upper()` restricted to ASCII letters (zone and state codes
    are ASCII); `Char.toUpper` maps `a`-`z` to `A`-`Z` and fixes the rest. -/
def pyUpper (s : String) : String :=
  String.mk (s.data.map Char.toUpper)

/-- The fixed Malaysia-time offset in seconds: `timezone(timedelta(hours=8))`. -/
def mytOffset : Int := 28800

/-- Seconds past midnight of the MYT wall-clock instant of a Unix timestamp. -/
def mytSecondsOfDay (ts : Int) : Int :=
  (ts + mytOffset).emod 86400

/-- Days since the Unix epoch of the MYT wall-clock date of a timestamp. -/
def mytDaysFromEpoch (ts : Int) : Int :=
  (ts + mytOffset).ediv 86400

/-- Civil (year, month, day) from a count of days since 1970-01-01,
    the standard proleptic-Gregorian conversion used by `datetime`. -/
def civilFromDays (z0 : Int) : Int × Int × Int :=
  let z := z0 + 719468
  let era := z.ediv 146097
  let doe := z - era * 146097
  let yoe := (doe - doe.ediv 1460 + doe.ediv 36524 - doe.ediv 146096).ediv 365
  let y := yoe + era * 400
  let doy := doe - (365 * yoe + yoe.ediv 4 - yoe.ediv 100)
  let mp := (5 * doy + 2).ediv 153
  let d := doy - (153 * mp + 2).ediv 5 + 1
  let m := mp + (if mp < 10 then 3 else (-9))
  (if m ≤ 2 then y + 1 else y, m, d)

/-- Full English month name, as `strftime("%B")` produces in the C locale. -/
def monthName : Int → String
  | 1 => "January"
  | 2 => "February"
  | 3 => "March"
  | 4 => "April"
  | 5 => "May"
  | 6 => "June"
  | 7 => "July"
  | 8 => "August"
  | 9 => "September"
  | 10 => "October"
  | 11 => "November"
  | 12 => "December"
  | _ => ""

/-- Zero-padding to two digits, as in `strftime` fields `%d`, `%I`, `%M`. -/
def pad2 (n : Int) : String :=
  if n < 10 then "0" ++ toString n else toString n

/-- Left-justify in a field of width `w` (Python `f-string` `:N` on strings). -/
def padRight (w : Nat) (s : String) : String :=
  s ++ String.mk (List.replicate (w - s.length) ' ')

/-- Right-justify in a field of width `w` (Python `f-string` `:N` on numbers). -/
def padLeft (w : Nat) (s : String) : String :=
  String.mk (List.replicate (w - s.length) ' ') ++ s

/-- `strftime("%I:%M %p")` applied to a seconds-past-midnight value. -/
def fmtTimeOfDay (s : Int) : String :=
  let h24 := s.ediv 3600
  let minute := (s.emod 3600).ediv 60
  let h0 := h24.emod 12
  let h12 := if h0 = 0 then 12 else h0
  pad2 h12 ++ ":" ++ pad2 minute ++ " " ++ (if h24 < 12 then "AM" else "PM")

/-- `_timestamp_to_myt_str`: Unix timestamp to `"05:42 AM"`-style MYT time. -/
def timestampToMytStr (ts : Int) : String :=
  fmtTimeOfDay (mytSecondsOfDay ts)

/-- `now_myt.strftime("%d %B %Y")` for a Unix timestamp interpreted in MYT. -/
def mytDateStr (ts : Int) : String :=
  let c := civilFromDays (mytDaysFromEpoch ts)
  pad2 c.2.2 ++ " " ++ monthName c.2.1 ++ " " ++ toString c.1

/-- `now_myt.day`: the current day-of-month in Malaysia time. -/
def mytDay (ts : Int) : Int :=
  (civilFromDays (mytDaysFromEpoch ts)).2.2

/-- Outcome of one network request: an HTTP response (status, reason phrase,
    JSON body) or a transport-level failure (httpx raising, e.g. a connection
    error or timeout, before any response exists). -/
inductive FetchOutcome where
  | response (status : Nat) (reason : String) (body : JVal)
  | netError (msg : String)

/-- The upstream service as seen by one client instance: the outcome of the
    `n`-th network call (0-based) to a given URL. -/
def UpstreamOracle : Type := Nat → String → FetchOutcome

/-- Errors a fetch can produce: `api` is `WaktuSolatAPIError` (raised by
    `_fetch` on a non-200 status), `transport` is an httpx exception that
    `_fetch` does not raise itself and no tool catches. -/
inductive FetchErr where
  | api (msg : String)
  | transport (msg : String)
deriving DecidableEq

/-- State of one `WaktuSolatAPI` instance: whether the lazily-created
    `httpx.AsyncClient` currently exists (`_client is not None`), the
    URL-keyed response cache, and the log of network requests issued. -/
structure ClientState where
  conn : Bool
  cache : List (String × JVal)
  calls : List String

/-- `WaktuSolatAPI.__init__`: no connection, empty cache. -/
def initClient : ClientState := ⟨false, [], []⟩

/-- `WaktuSolatAPI.close`: drop the connection; the cache survives.
    Closing an already-closed client is a no-op. -/
def closeClient (st : ClientState) : ClientState := { st with conn := false }

/-- Cache lookup by exact URL (`if url in self._cache`). -/
def lookupCache : List (String × JVal) → String → Option JVal
  | [], _ => none
  | (k, v) :: rest, u => if k = u then some v else lookupCache rest u

/-- The message of the `WaktuSolatAPIError` raised by `_fetch`. -/
def apiErrMsg (status : Nat) (reason url : String) : String :=
  "API request failed: " ++ toString status ++ " " ++ reason ++ " for " ++ url

/-- `WaktuSolatAPI._fetch`: serve from the cache when the URL is present;
    otherwise create the connection if needed, issue the request, raise
    `WaktuSolatAPIError` on a status other than 200, and cache the body
    only after a 200 response. -/
def fetchJson (oracle : UpstreamOracle) (st : ClientState) (url : String) :
    Except FetchErr JVal × ClientState :=
  match lookupCache st.cache url with
  | some v => (.ok v, st)
  | none =>
    let st1 : ClientState := { st with conn := true }
    match oracle st1.calls.length url with
    | .netError m => (.error (.transport m), { st1 with calls := st1.calls ++ [url] })
    | .response status reason body =>
      let st2 : ClientState := { st1 with calls := st1.calls ++ [url] }
      if status = 200 then
        (.ok body, { st2 with cache := st2.cache ++ [(url, body)] })
      else
        (.error (.api (apiErrMsg status reason url)), st2)

/-- The request URL built by `WaktuSolatAPI.get_prayer_times` (after its own
    upper-casing of the zone): with both `year` and `month` supplied the
    query form, otherwise the current-month form. -/
def solatUrl (zone : String) (year month : Option Int) : String :=
  match year, month with
  | some y, some m => "/v2/solat/" ++ zone ++ "?year=" ++ toString y ++ "&month=" ++ toString m
  | _, _ => "/v2/solat/" ++ zone

/-- `WaktuSolatAPI.get_prayer_times`: upper-case the zone, build the URL,
    fetch. -/
def apiGetPrayerTimes (oracle : UpstreamOracle) (st : ClientState) (zone : String)
    (year month : Option Int) : Except FetchErr JVal × ClientState :=
  fetchJson oracle st (solatUrl (pyUpper zone) year month)

/-- The request URL built by `WaktuSolatAPI.get_zones` (Python `if state:`
    is truthiness, so an empty-string filter falls back to `/zones`). -/
def zonesUrl (stateF : Option String) : String :=
  match stateF with
  | some s => if s ≠ "" then "/zones/" ++ pyUpper s else "/zones"
  | none => "/zones"

/-- The shape normalization at the end of `WaktuSolatAPI.get_zones`:
    a bare list is returned as-is; a dict containing the key `"zones"`
    yields whatever value sits under that key; any other dict becomes a
    one-element list; everything else becomes the empty list. -/
def normalizeZonesData (data : JVal) : JVal :=
  match data with
  | .arr xs => .arr xs
  | .obj fields =>
    match jLookup fields "zones" with
    | some v => v
    | none => .arr [.obj fields]
  | _ => .arr []

/-- `WaktuSolatAPI.get_zones`: build the URL, fetch, normalize the shape. -/
def apiGetZones (oracle : UpstreamOracle) (st : ClientState) (stateF : Option String) :
    Except FetchErr JVal × ClientState :=
  match fetchJson oracle st (zonesUrl stateF) with
  | (.ok data, st') => (.ok (normalizeZonesData data), st')
  | (.error e, st') => (.error e, st')

/-- One day object of the upstream schedule, as the tool code reads it:
    `p["day"]` (always present per the upstream schema), optional `hijri`,
    and the six optional prayer timestamps. -/
structure DayEntry where
  day : Int
  hijri : Option String
  fajr : Option Int
  syuruk : Option Int
  dhuhr : Option Int
  asr : Option Int
  maghrib : Option Int
  isha : Option Int
deriving DecidableEq

/-- The schedule JSON as the tool code reads it via `.get`. -/
structure Sched where
  zone : Option String
  year : Option Int
  month : Option String
  prayers : List DayEntry
deriving DecidableEq

/-- `.get` of an integer field. -/
def jGetInt (j : JVal) (k : String) : Option Int :=
  match jGet j k with
  | some (.num n) => some n
  | _ => none

/-- `.get` of a string field. -/
def jGetStr (j : JVal) (k : String) : Option String :=
  match jGet j k with
  | some (.str s) => some s
  | _ => none

/-- View of one `prayers` element (`p["day"]` defaults through `.get("day", 0)`
    in the places the code uses a default). -/
def decodeDay (j : JVal) : DayEntry :=
  ⟨(jGetInt j "day").getD 0, jGetStr j "hijri", jGetInt j "fajr", jGetInt j "syuruk",
   jGetInt j "dhuhr", jGetInt j "asr", jGetInt j "maghrib", jGetInt j "isha"⟩

/-- View of the schedule JSON (`data.get("prayers", [])` defaults to the
    empty list; a non-list `prayers` never occurs upstream). -/
def decodeSched (j : JVal) : Sched :=
  ⟨jGetStr j "zone", jGetInt j "year", jGetStr j "month",
   match jGet j "prayers" with
   | some (.arr xs) => xs.map decodeDay
   | _ => []⟩

/-- Python exceptions that can escape a tool handler in this embedding. -/
inductive PyExn where
  | valueError (msg : String)
  | typeError (msg : String)
  | attributeError (msg : String)
  | transportError (msg : String)
deriving DecidableEq

/-- `"\n".join(lines)`. -/
def joinLines : List String → String
  | [] => ""
  | [x] => x
  | x :: xs => x ++ "\n" ++ joinLines xs

/-- `next((p for p in prayers_list if p["day"] == d), None)`. -/
def findEntry (entries : List DayEntry) (d : Int) : Option DayEntry :=
  entries.find? (fun p => p.day == d)

/-- `max(p.get("day", 0) for p in prayers_list)` accumulated over a tail. -/
def maxDayAux (a : Int) : List DayEntry → Int
  | [] => a
  | p :: ps => maxDayAux (max a p.day) ps

/-- Python `max` over the day numbers: `none` models the `ValueError` that
    `max` raises on an empty sequence. -/
def maxDay : List DayEntry → Option Int
  | [] => none
  | p :: ps => some (maxDayAux p.day ps)

/-- `PRAYER_NAMES` zipped with the entry's timestamps, in source order. -/
def prayerNamesOf (e : DayEntry) : List (String × Option Int) :=
  [("Subuh/Fajr", e.fajr), ("Syuruk/Sunrise", e.syuruk), ("Zohor/Dhuhr", e.dhuhr),
   ("Asar/Asr", e.asr), ("Maghrib", e.maghrib), ("Isyak/Isha", e.isha)]

/-- Formatting phase of `get_prayer_times_today` (everything after the fetch):
    find today's entry by MYT day-of-month; when absent, build the fallback
    message whose `max(...) or 28` raises `ValueError` on an empty prayers
    list and substitutes 28 only when the maximum is the falsy value 0;
    when present, render the header, the date line, and one line per present
    prayer timestamp. -/
def formatToday (now : Int) (zoneArg : String) (data : Sched) : Except PyExn String :=
  let zoneName := (data.zone).getD zoneArg
  match findEntry data.prayers (mytDay now) with
  | none =>
    match maxDay data.prayers with
    | none => .error (.valueError "max() arg is an empty sequence")
    | some m =>
      .ok ("No prayer data for today (zone " ++ zoneName ++ "). Month has days 1-" ++
           toString (if m = 0 then (28 : Int) else m) ++ ".")
  | some e =>
    .ok (joinLines
      (["Prayer times for zone " ++ zoneName,
        "Date: " ++ mytDateStr now ++ " (" ++ (e.hijri).getD "" ++ ")",
        ""] ++
       (prayerNamesOf e).filterMap fun lo =>
         (lo.2).map fun ts => "  " ++ lo.1 ++ ": " ++ timestampToMytStr ts))

/-- The `prayer_order` list of `get_next_prayer` zipped with the entry's
    timestamps (its labels differ from `PRAYER_NAMES`). -/
def nextPrayerOrder (e : DayEntry) : List (String × Option Int) :=
  [("Subuh/Fajr", e.fajr), ("Syuruk", e.syuruk), ("Zohor/Dhuhr", e.dhuhr),
   ("Asar/Asr", e.asr), ("Maghrib", e.maghrib), ("Isyak/Isha", e.isha)]

/-- The scan of `get_next_prayer`: the first prayer (in canonical order)
    whose timestamp is present (`is not None`) and strictly after `now`. -/
def firstFutureAux (now : Int) : List (String × Option Int) → Option (String × Int)
  | [] => none
  | (label, o) :: rest =>
    match o with
    | some ts => if ts > now then some (label, ts) else firstFutureAux now rest
    | none => firstFutureAux now rest

/-- The countdown string: `divmod(remaining, 60)` then `divmod(mins, 60)`,
    rendered as `"Xh Ym"` when at least one full hour remains, else `"Ym"`. -/
def countdownStr (remaining : Int) : String :=
  let mins := remaining.ediv 60
  let hrs := mins.ediv 60
  let minsR := mins.emod 60
  if hrs > 0 then toString hrs ++ "h " ++ toString minsR ++ "m"
  else toString minsR ++ "m"

/-- The `"Next prayer: ..."` line of `get_next_prayer`. -/
def nextPrayerMsg (now : Int) (label : String) (ts : Int) : String :=
  "Next prayer: " ++ label ++ " at " ++ timestampToMytStr ts ++
  " (in " ++ countdownStr (ts - now) ++ ")"

/-- The tomorrow line of `get_next_prayer`. -/
def tomorrowFajrMsg (now : Int) (ts : Int) : String :=
  "All prayers today have passed. Next: Subuh/Fajr (tomorrow) at " ++
  timestampToMytStr ts ++ " (in " ++ countdownStr (ts - now) ++ ")"

/-- The final fallback line of `get_next_prayer`. -/
def noTomorrowMsg : String :=
  "All prayers for today have passed. No tomorrow data in current month."

/-- Formatting phase of `get_next_prayer` (everything after the fetch):
    find today's entry; scan for the first present future timestamp; when
    none, look up day+1 and report its `fajr` when that value is truthy
    (present and nonzero), else the final fallback. -/
def formatNext (now : Int) (zoneArg : String) (entries : List DayEntry) : String :=
  match findEntry entries (mytDay now) with
  | none => "No prayer data for today in zone " ++ zoneArg ++ "."
  | some e =>
    match firstFutureAux now (nextPrayerOrder e) with
    | some lt => nextPrayerMsg now lt.1 lt.2
    | none =>
      match findEntry entries (mytDay now + 1) with
      | some tm =>
        match tm.fajr with
        | some ts => if ts ≠ 0 then tomorrowFajrMsg now ts else noTomorrowMsg
        | none => noTomorrowMsg
      | none => noTomorrowMsg

/-- One cell of the month table: the formatted time when the timestamp is
    truthy (`if p.get("fajr")`), else `"-"`. -/
def monthCell (o : Option Int) : String :=
  match o with
  | some ts => if ts ≠ 0 then timestampToMytStr ts else "-"
  | none => "-"

/-- One row of the month table (`f"\x7bday:3\x7d | \x7bhijri:9\x7d | ..."`). -/
def monthRow (p : DayEntry) : String :=
  padLeft 3 (toString p.day) ++ " | " ++ padRight 9 ((p.hijri).getD "") ++ " | " ++
  padRight 7 (monthCell p.fajr) ++ " | " ++ padRight 7 (monthCell p.syuruk) ++ " | " ++
  padRight 7 (monthCell p.dhuhr) ++ " | " ++ padRight 7 (monthCell p.asr) ++ " | " ++
  padRight 7 (monthCell p.maghrib) ++ " | " ++ monthCell p.isha

/-- Formatting phase of `get_prayer_times_month`. -/
def formatMonth (zoneArg : String) (year month : Int) (data : Sched) : String :=
  let zoneName := (data.zone).getD zoneArg
  let monthLabel := (data.month).getD (toString month)
  joinLines
    (["Prayer times for zone " ++ zoneName ++ ", " ++ monthLabel ++ " " ++ toString year,
      "",
      "Day | Hijri     | Subuh   | Syuruk  | Zohor   | Asar    | Maghrib | Isyak",
      String.mk (List.replicate 75 '-')] ++ data.prayers.map monthRow)

/-- Python `str()` of a JSON scalar, as interpolated by the f-strings.
    Container values never occur in zone fields; their rendering is
    abbreviated here. -/
def jToStr : JVal → String
  | .null => "None"
  | .bool true => "True"
  | .bool false => "False"
  | .num n => toString n
  | .str s => s
  | .arr _ => "[...]"
  | .obj _ => "\x7b...\x7d"

/-- f-string width formatting: strings left-justify, numbers right-justify. -/
def fmtWidth (w : Nat) : JVal → String
  | .str s => padRight w s
  | .num n => padLeft w (toString n)
  | j => padRight w (jToStr j)

/-- One row of the zone table; a non-dict element would fail the `.get`
    attribute lookup in Python. -/
def zoneRow (z : JVal) : Except PyExn String :=
  match z with
  | .obj fs =>
    .ok (fmtWidth 6 ((jLookup fs "jakimCode").getD (.str "")) ++ " | " ++
         fmtWidth 18 ((jLookup fs "negeri").getD (.str "")) ++ " | " ++
         jToStr ((jLookup fs "daerah").getD (.str "")))
  | _ => .error (.attributeError "element has no attribute get")

/-- Formatting phase of `list_zones`: `"No zones found."` for a falsy result,
    the three-column table for a list, and the Python fault that iterating a
    truthy non-list (or its non-dict elements) would produce. -/
def formatZones (zs : JVal) : Except PyExn String :=
  if jTruthy zs = false then .ok "No zones found."
  else
    match zs with
    | .arr xs =>
      match xs.mapM zoneRow with
      | .ok rows =>
        .ok (joinLines (["Zone   | State              | Area",
                         String.mk (List.replicate 60 '-')] ++ rows))
      | .error e => .error e
    | .str _ => .error (.attributeError "element has no attribute get")
    | .obj _ => .error (.attributeError "element has no attribute get")
    | _ => .error (.typeError "object is not iterable")

/-- The tool `get_prayer_times_today`: normalize the zone, run the fetch in
    the scoped client (closed on every exit path of the `async with` block),
    turn `WaktuSolatAPIError` into `"Error: ..."`, let transport exceptions
    escape, then format. -/
def getPrayerTimesTodayTool (oracle : UpstreamOracle) (now : Int) (zone : String) :
    Except PyExn String × ClientState :=
  let zoneN := pyUpper (pyStrip zone)
  match apiGetPrayerTimes oracle initClient zoneN none none with
  | (res, st) =>
    let st := closeClient st
    match res with
    | .error (.api m) => (.ok ("Error: " ++ m), st)
    | .error (.transport m) => (.error (.transportError m), st)
    | .ok data => (formatToday now zoneN (decodeSched data), st)

/-- The tool `get_prayer_times_month`. -/
def getPrayerTimesMonthTool (oracle : UpstreamOracle) (zone : String) (year month : Int) :
    Except PyExn String × ClientState :=
  let zoneN := pyUpper (pyStrip zone)
  match apiGetPrayerTimes oracle initClient zoneN (some year) (some month) with
  | (res, st) =>
    let st := closeClient st
    match res with
    | .error (.api m) => (.ok ("Error: " ++ m), st)
    | .error (.transport m) => (.error (.transportError m), st)
    | .ok data => (.ok (formatMonth zoneN year month (decodeSched data)), st)

/-- The tool `get_next_prayer`. -/
def getNextPrayerTool (oracle : UpstreamOracle) (now : Int) (zone : String) :
    Except PyExn String × ClientState :=
  let zoneN := pyUpper (pyStrip zone)
  match apiGetPrayerTimes oracle initClient zoneN none none with
  | (res, st) =>
    let st := closeClient st
    match res with
    | .error (.api m) => (.ok ("Error: " ++ m), st)
    | .error (.transport m) => (.error (.transportError m), st)
    | .ok data => (.ok (formatNext now zoneN (decodeSched data).prayers), st)

/-- The tool `list_zones` (no tool-level normalization of the state filter). -/
def listZonesTool (oracle : UpstreamOracle) (stateF : Option String) :
    Except PyExn String × ClientState :=
  match apiGetZones oracle initClient stateF with
  | (res, st) =>
    let st := closeClient st
    match res with
    | .error (.api m) => (.ok ("Error: " ++ m), st)
    | .error (.transport m) => (.error (.transportError m), st)
    | .ok zs => (formatZones zs, st)

/-- The present timestamps of an entry, in canonical order. -/
def presentTimes (e : DayEntry) : List Int :=
  (nextPrayerOrder e).filterMap (fun lo => lo.2)

/-- The data-model invariant of the spec: the present timestamps of one day
    are strictly increasing in canonical order. -/
def MonotoneDay (e : DayEntry) : Prop :=
  List.Pairwise (· < ·) (presentTimes e)

/-- Two strings are equal up to letter case: pointwise equal after
    upper-casing. -/
def eqUpToCase (u v : String) : Prop :=
  List.Forall₂ (fun a b => Char.toUpper a = Char.toUpper b) u.data v.data

/-- Two inputs are equal up to case and surrounding whitespace. -/
def eqUpToCaseWs (s t : String) : Prop :=
  eqUpToCase (pyStrip s) (pyStrip t)

/-- The request URL issued by `get_prayer_times_today` for a raw zone
    argument: the tool strips and upper-cases, then `get_prayer_times`
    upper-cases again. -/
def todayRequestUrl (zone : String) : String :=
  solatUrl (pyUpper (pyUpper (pyStrip zone))) none none

/-- C1: the tool layer lets transport-level httpx exceptions escape: only
    `WaktuSolatAPIError` is caught, so a connection failure is not rendered
    as an `"Error: ..."` string but propagates past the tool boundary. -/
theorem c1_transport_error_escapes_tool :
    (getPrayerTimesTodayTool (fun _ _ => .netError "Connection refused") 0 "SGR01").1
      = .error (.transportError "Connection refused") := rfl

/-- C2: on a schedule whose `prayers` list is empty and has no entry for
    today, `get_prayer_times_today` evaluates `max()` over an empty sequence
    and raises `ValueError` instead of reporting the documented default 28. -/
theorem c2_empty_prayers_raises_value_error :
    (getPrayerTimesTodayTool (fun _ _ => .response 200 "OK" (.obj [("prayers", .arr [])]))
        0 "SGR01").1
      = .error (.valueError "max() arg is an empty sequence") := rfl

/-- C9: `close()` is idempotent, and every one of the four tools leaves its
    scoped client released (connection dropped) on every outcome of the
    fetch: success, handled API error, or escaping transport fault. -/
theorem c9_close_idempotent_and_always_invoked :
    (∀ st : ClientState, closeClient (closeClient st) = closeClient st) ∧
    (∀ (oracle : UpstreamOracle) (now : Int) (zone : String),
       ((getPrayerTimesTodayTool oracle now zone).2).conn = false) ∧
    (∀ (oracle : UpstreamOracle) (zone : String) (year month : Int),
       ((getPrayerTimesMonthTool oracle zone year month).2).conn = false) ∧
    (∀ (oracle : UpstreamOracle) (now : Int) (zone : String),
       ((getNextPrayerTool oracle now zone).2).conn = false) ∧
    (∀ (oracle : UpstreamOracle) (stateF : Option String),
       ((listZonesTool oracle stateF).2).conn = false) := by
  refine ⟨fun st => rfl, fun oracle now zone => ?_, fun oracle zone y m => ?_,
    fun oracle now zone => ?_, fun oracle stF => ?_⟩
  · rcases h : apiGetPrayerTimes oracle initClient (pyUpper (pyStrip zone)) none none
      with ⟨res, st⟩
    rcases res with e | data
    · rcases e with m | m <;> simp [getPrayerTimesTodayTool, h, closeClient]
    · simp [getPrayerTimesTodayTool, h, closeClient]
  · rcases h : apiGetPrayerTimes oracle initClient (pyUpper (pyStrip zone)) (some y) (some m)
      with ⟨res, st⟩
    rcases res with e | data
    · rcases e with m' | m' <;> simp [getPrayerTimesMonthTool, h, closeClient]
    · simp [getPrayerTimesMonthTool, h, closeClient]
  · rcases h : apiGetPrayerTimes oracle initClient (pyUpper (pyStrip zone)) none none
      with ⟨res, st⟩
    rcases res with e | data
    · rcases e with m | m <;> simp [getNextPrayerTool, h, closeClient]
    · simp [getNextPrayerTool, h, closeClient]
  · rcases h : apiGetZones oracle initClient stF with ⟨res, st⟩
    rcases res with e | data
    · rcases e with m | m <;> simp [listZonesTool, h, closeClient]
    · simp [listZonesTool, h, closeClient]

/-- C5: within one client instance, two fetches of the same URL issue only
    one network request (the second is served from the cache and returns the
    same value), while two fetches of different URLs each hit the network. -/
theorem c5_cache_memoization (oracle : UpstreamOracle) (u1 u2 : String)
    (reason : String) (body : JVal)
    (h : oracle 0 u1 = .response 200 reason body) :
    (u2 = u1 →
      (fetchJson oracle (fetchJson oracle initClient u1).2 u2).2.calls = [u1] ∧
      (fetchJson oracle (fetchJson oracle initClient u1).2 u2).1
        = (fetchJson oracle initClient u1).1) ∧
    (u2 ≠ u1 →
      (fetchJson oracle (fetchJson oracle initClient u1).2 u2).2.calls = [u1, u2]) := by
  have h1 : fetchJson oracle initClient u1 = (.ok body, ⟨true, [(u1, body)], [u1]⟩) := by
    simp [fetchJson, initClient, lookupCache, h]
  constructor
  · intro he
    subst he
    rw [h1]
    simp [fetchJson, lookupCache]
  · intro hne
    rw [h1]
    simp only [fetchJson, lookupCache]
    rw [if_neg (fun hc => hne hc.symm)]
    cases ho : oracle 1 u2 with
    | netError m => simp [ho]
    | response status reason2 body2 =>
      by_cases hs : status = 200 <;> simp [ho, hs]

/-- C5 witness: with a constantly-succeeding upstream, fetching `/zones`
    twice issues exactly one network call and returns the cached body. -/
theorem c5_cache_memoization_witness :
    (fetchJson (fun _ _ => .response 200 "OK" (.str "z"))
        (fetchJson (fun _ _ => .response 200 "OK" (.str "z")) initClient "/zones").2
        "/zones").2.calls = ["/zones"] ∧
    (fetchJson (fun _ _ => .response 200 "OK" (.str "z"))
        (fetchJson (fun _ _ => .response 200 "OK" (.str "z")) initClient "/zones").2
        "/zones").1
      = (fetchJson (fun _ _ => .response 200 "OK" (.str "z")) initClient "/zones").1 :=
  (c5_cache_memoization (fun _ _ => .response 200 "OK" (.str "z")) "/zones" "/zones"
    "OK" (.str "z") rfl).1 rfl

/-- C6 counterexample: HTTP 201 is a success status, yet `get_prayer_times`
    raises `WaktuSolatAPIError` for it, because `_fetch` accepts only the
    exact status 200; the claim's "success status implies no error" is
    false at status 201. -/
theorem c6_counterexample_201_raises :
    (apiGetPrayerTimes (fun _ _ => .response 201 "Created" (.obj []))
        initClient "SGR01" none none).1
      = .error (.api "API request failed: 201 Created for /v2/solat/SGR01") := rfl

/-- C6 (amended): when the first upstream response for the request URL has a
    status other than exactly 200, `get_prayer_times` fails with a
    `WaktuSolatAPIError` whose message carries the status code and reason;
    when the status is exactly 200 the body is returned as received. -/
theorem c6_fetch_status_contract (oracle : UpstreamOracle) (zone : String)
    (year month : Option Int) (status : Nat) (reason : String) (body : JVal)
    (h : oracle 0 (solatUrl (pyUpper zone) year month) = .response status reason body) :
    (status ≠ 200 →
      (apiGetPrayerTimes oracle initClient zone year month).1
        = .error (.api (apiErrMsg status reason (solatUrl (pyUpper zone) year month)))) ∧
    (status = 200 →
      (apiGetPrayerTimes oracle initClient zone year month).1 = .ok body) ∧
    apiErrMsg status reason (solatUrl (pyUpper zone) year month)
      = "API request failed: " ++ toString status ++ " " ++ reason ++ " for "
        ++ solatUrl (pyUpper zone) year month := by
  refine ⟨fun hs => ?_, fun hs => ?_, rfl⟩
  · simp [apiGetPrayerTimes, fetchJson, initClient, lookupCache, h, hs]
  · simp [apiGetPrayerTimes, fetchJson, initClient, lookupCache, h, hs]

/-- C6 witness: a 404 response produces the `WaktuSolatAPIError` message with
    the code and reason, and a 200 response returns the body. -/
theorem c6_fetch_status_contract_witness :
    (apiGetPrayerTimes (fun _ _ => .response 404 "Not Found" .null)
        initClient "sgr01" none none).1
      = .error (.api (apiErrMsg 404 "Not Found" "/v2/solat/SGR01")) :=
  (c6_fetch_status_contract (fun _ _ => .response 404 "Not Found" .null)
    "sgr01" none none 404 "Not Found" .null rfl).1 (by decide)

/-- A cache miss always issues exactly one network request, appending the URL
    to the call log whatever the outcome. -/
theorem fetchJson_calls_of_miss (oracle : UpstreamOracle) (st : ClientState) (u : String)
    (h : lookupCache st.cache u = none) :
    (fetchJson oracle st u).2.calls = st.calls ++ [u] := by
  cases ho : oracle st.calls.length u with
  | netError m => simp [fetchJson, h, ho]
  | response status reason body =>
    by_cases hs : status = 200 <;> simp [fetchJson, h, ho, hs]

/-- A failed fetch leaves the cache unchanged, and can only have happened on
    a cache miss. -/
theorem fetchJson_error_cache (oracle : UpstreamOracle) (st : ClientState) (u : String)
    (e : FetchErr) (h : (fetchJson oracle st u).1 = .error e) :
    (fetchJson oracle st u).2.cache = st.cache ∧ lookupCache st.cache u = none := by
  cases hc : lookupCache st.cache u with
  | some v => simp [fetchJson, hc] at h
  | none =>
    refine ⟨?_, rfl⟩
    cases ho : oracle st.calls.length u with
    | netError m => simp [fetchJson, hc, ho]
    | response status reason body =>
      by_cases hs : status = 200
      · subst hs
        simp [fetchJson, hc, ho] at h
      · simp [fetchJson, hc, ho, hs]

/-- A cache miss answered with status 200 returns the body. -/
theorem fetchJson_ok_of_200 (oracle : UpstreamOracle) (st : ClientState) (u : String)
    (reason : String) (body : JVal) (hm : lookupCache st.cache u = none)
    (h : oracle st.calls.length u = .response 200 reason body) :
    (fetchJson oracle st u).1 = .ok body := by
  simp [fetchJson, hm, h]

/-- C10: when a fetch fails (any error), nothing was inserted into the cache:
    the cache is unchanged, the URL is still absent from it, a repeat fetch of
    the same URL issues a fresh network request, and that fresh request can
    succeed if the upstream now answers 200. -/
theorem c10_failed_fetch_not_cached (oracle : UpstreamOracle) (st : ClientState)
    (u : String) (e : FetchErr) (h : (fetchJson oracle st u).1 = .error e) :
    (fetchJson oracle st u).2.cache = st.cache ∧
    lookupCache st.cache u = none ∧
    (fetchJson oracle (fetchJson oracle st u).2 u).2.calls = (st.calls ++ [u]) ++ [u] ∧
    (∀ reason body, oracle (st.calls.length + 1) u = .response 200 reason body →
      (fetchJson oracle (fetchJson oracle st u).2 u).1 = .ok body) := by
  obtain ⟨hcache, hnone⟩ := fetchJson_error_cache oracle st u e h
  have hnone2 : lookupCache (fetchJson oracle st u).2.cache u = none := by
    rw [hcache]; exact hnone
  have hcalls1 : (fetchJson oracle st u).2.calls = st.calls ++ [u] :=
    fetchJson_calls_of_miss oracle st u hnone
  refine ⟨hcache, hnone, ?_, ?_⟩
  · rw [fetchJson_calls_of_miss _ _ _ hnone2, hcalls1]
  · intro reason body hok
    apply fetchJson_ok_of_200 _ _ _ _ _ hnone2
    rw [hcalls1]
    simpa using hok

/-- C10 witness: a 500 on the first call is not cached, the retry issues a
    second network request, and since the upstream answers 200 on that second
    call, the retry succeeds instead of replaying the failure. -/
theorem c10_failed_fetch_not_cached_witness :
    (fetchJson (fun n _ => if n = 0 then .response 500 "Internal Server Error" .null
                           else .response 200 "OK" (.str "ok"))
        (fetchJson (fun n _ => if n = 0 then .response 500 "Internal Server Error" .null
                               else .response 200 "OK" (.str "ok")) initClient "/zones").2
        "/zones").1 = .ok (.str "ok") :=
  (c10_failed_fetch_not_cached
    (fun n _ => if n = 0 then .response 500 "Internal Server Error" .null
                else .response 200 "OK" (.str "ok"))
    initClient "/zones" (.api (apiErrMsg 500 "Internal Server Error" "/zones"))
    rfl).2.2.2 "OK" (.str "ok") rfl

/-- C4 counterexample: for an upstream response object containing the key
    `"zones"` bound to the non-list `5`, `get_zones` returns `5` itself —
    not the one-element sequence containing the object that the claim
    promises for "any other single object", and not a sequence at all. -/
theorem c4_counterexample_zones_key_non_list :
    (apiGetZones (fun _ _ => .response 200 "OK" (.obj [("zones", .num 5)]))
        initClient none).1 = .ok (.num 5) ∧
    (∀ xs : List JVal, JVal.num 5 ≠ JVal.arr xs) := by
  refine ⟨rfl, fun xs h => JVal.noConfusion h⟩

/-- C4 (amended): on a 200 zone-list response, `get_zones` returns the
    normalized body: a bare list as-is; an object containing the key
    `"zones"` yields whatever value sits under that key (the wrapped list
    when the upstream wraps a list, but the value as-is otherwise); any
    other object yields the one-element sequence containing it; any other
    shape yields the empty sequence. -/
theorem c4_zone_shape_normalization (oracle : UpstreamOracle) (stateF : Option String)
    (reason : String) (body : JVal)
    (h : oracle 0 (zonesUrl stateF) = .response 200 reason body) :
    (apiGetZones oracle initClient stateF).1 = .ok (normalizeZonesData body) ∧
    (∀ xs, body = .arr xs → normalizeZonesData body = .arr xs) ∧
    (∀ fs v, body = .obj fs → jLookup fs "zones" = some v →
      normalizeZonesData body = v) ∧
    (∀ fs, body = .obj fs → jLookup fs "zones" = none →
      normalizeZonesData body = .arr [.obj fs]) ∧
    ((∀ xs, body ≠ .arr xs) → (∀ fs, body ≠ .obj fs) →
      normalizeZonesData body = .arr []) := by
  refine ⟨?_, ?_, ?_, ?_, ?_⟩
  · simp [apiGetZones, fetchJson, initClient, lookupCache, h]
  · intro xs hx
    subst hx
    rfl
  · intro fs v hx hz
    subst hx
    simp [normalizeZonesData, hz]
  · intro fs hx hz
    subst hx
    simp [normalizeZonesData, hz]
  · intro hna hno
    cases body with
    | arr xs => exact absurd rfl (hna xs)
    | obj fs => exact absurd rfl (hno fs)
    | null => rfl
    | bool b => rfl
    | num n => rfl
    | str s => rfl

/-- C4 witness: a bare three-element list comes back unchanged. -/
theorem c4_zone_shape_normalization_witness :
    (apiGetZones (fun _ _ => .response 200 "OK" (.arr [.null, .null, .null]))
        initClient none).1
      = .ok (normalizeZonesData (.arr [.null, .null, .null])) :=
  (c4_zone_shape_normalization (fun _ _ => .response 200 "OK" (.arr [.null, .null, .null]))
    none "OK" (.arr [.null, .null, .null]) rfl).1

/-- Upper-casing a character twice is the same as doing it once. -/
theorem char_toUpper_idem (c : Char) : c.toUpper.toUpper = c.toUpper := by
  by_cases h : 97 ≤ c.toNat ∧ c.toNat ≤ 122
  · have h1 : c.toUpper = Char.ofNat (c.toNat - 32) := by
      simp [Char.toUpper, ge_iff_le, h.1, h.2]
    obtain ⟨h97, h122⟩ := h
    rw [h1]
    interval_cases hc : c.toNat <;> decide
  · have h1 : c.toUpper = c := by
      simp only [Char.toUpper]
      rw [if_neg]
      omega
    rw [h1, h1]

/-- Python `upper()` is idempotent. -/
theorem pyUpper_idem (s : String) : pyUpper (pyUpper s) = pyUpper s := by
  cases s with
  | mk l =>
    simp only [pyUpper, List.map_map]
    congr 1
    induction l with
    | nil => rfl
    | cons c cs ih => simp [Function.comp, char_toUpper_idem, ih]

/-- Pointwise case-insensitive equality gives equal upper-cased images. -/
theorem map_toUpper_eq_of_forall2 {u v : List Char}
    (h : List.Forall₂ (fun a b => Char.toUpper a = Char.toUpper b) u v) :
    u.map Char.toUpper = v.map Char.toUpper := by
  induction h with
  | nil => rfl
  | cons hab _ ih => simp [hab, ih]

/-- C8: the request URL issued by `get_prayer_times_today` (tool-layer
    strip+upper followed by the client's upper) embeds exactly the uppercase
    trimmed zone code, and any two zone inputs that agree up to letter case
    and surrounding whitespace produce identical request URLs. -/
theorem c8_zone_normalization_invariance (s t : String) :
    todayRequestUrl s = "/v2/solat/" ++ pyUpper (pyStrip s) ∧
    (eqUpToCaseWs s t → todayRequestUrl s = todayRequestUrl t) := by
  constructor
  · simp only [todayRequestUrl, solatUrl, pyUpper_idem]
  · intro h
    have hmap : (pyStrip s).data.map Char.toUpper = (pyStrip t).data.map Char.toUpper :=
      map_toUpper_eq_of_forall2 h
    simp only [todayRequestUrl, solatUrl, pyUpper, hmap]

/-- C8 witness: `" sgr01 "` and `"SGR01"` are equal up to case and
    surrounding whitespace and produce the same request URL, which embeds
    the normalized code `SGR01`. -/
theorem c8_zone_normalization_invariance_witness :
    todayRequestUrl " sgr01 " = "/v2/solat/" ++ pyUpper (pyStrip " sgr01 ") ∧
    todayRequestUrl " sgr01 " = todayRequestUrl "SGR01" :=
  ⟨(c8_zone_normalization_invariance " sgr01 " "SGR01").1,
   (c8_zone_normalization_invariance " sgr01 " "SGR01").2
     (List.Forall₂.cons (by decide) (List.Forall₂.cons (by decide)
       (List.Forall₂.cons (by decide) (List.Forall₂.cons (by decide)
         (List.Forall₂.cons (by decide) List.Forall₂.nil)))))⟩

/-- The rendered time of day always has the 12-hour `hh:mm AM/PM` shape. -/
theorem fmtTimeOfDay_shape (s : Int) :
    ∃ h m : Int, 1 ≤ h ∧ h ≤ 12 ∧ 0 ≤ m ∧ m < 60 ∧
      (fmtTimeOfDay s = pad2 h ++ ":" ++ pad2 m ++ " " ++ "AM" ∨
       fmtTimeOfDay s = pad2 h ++ ":" ++ pad2 m ++ " " ++ "PM") := by
  have hnn : 0 ≤ (s.ediv 3600).emod 12 := Int.emod_nonneg _ (by norm_num)
  have hlt : (s.ediv 3600).emod 12 < 12 := Int.emod_lt_of_pos _ (by norm_num)
  have hm1 : 0 ≤ (s.emod 3600).ediv 60 :=
    Int.ediv_nonneg (Int.emod_nonneg _ (by norm_num)) (by norm_num)
  have hm2 : (s.emod 3600).ediv 60 < 60 :=
    Int.ediv_lt_of_lt_mul (by norm_num) (by
      have h36 := Int.emod_lt_of_pos s (show (0:Int) < 3600 by norm_num)
      exact lt_of_lt_of_le h36 (by norm_num))
  refine ⟨if (s.ediv 3600).emod 12 = 0 then 12 else (s.ediv 3600).emod 12,
          (s.emod 3600).ediv 60, ?_, ?_, hm1, hm2, ?_⟩
  · split <;> omega
  · split <;> omega
  · by_cases hap : s.ediv 3600 < 12
    · left
      simp [fmtTimeOfDay, hap]
    · right
      simp [fmtTimeOfDay, hap]

/-- C7: when today's entry is present with all six timestamps, the report
    consists of the zone name line, the date line with the Hijri date, a
    blank line, and the six prayers each rendered in 12-hour `hh:mm AM/PM`
    MYT wall-clock form; any timestamp whose MYT time of day is 05:42:00
    renders exactly as `"05:42 AM"`. -/
theorem c7_today_report (now : Int) (zoneArg : String) (data : Sched)
    (day : Int) (hij : Option String) (t1 t2 t3 t4 t5 t6 : Int)
    (he : findEntry data.prayers (mytDay now)
        = some ⟨day, hij, some t1, some t2, some t3, some t4, some t5, some t6⟩) :
    formatToday now zoneArg data = .ok (joinLines
      ["Prayer times for zone " ++ (data.zone).getD zoneArg,
       "Date: " ++ mytDateStr now ++ " (" ++ hij.getD "" ++ ")",
       "",
       "  Subuh/Fajr: " ++ timestampToMytStr t1,
       "  Syuruk/Sunrise: " ++ timestampToMytStr t2,
       "  Zohor/Dhuhr: " ++ timestampToMytStr t3,
       "  Asar/Asr: " ++ timestampToMytStr t4,
       "  Maghrib: " ++ timestampToMytStr t5,
       "  Isyak/Isha: " ++ timestampToMytStr t6]) ∧
    (∀ ts : Int, mytSecondsOfDay ts = 20520 → timestampToMytStr ts = "05:42 AM") ∧
    (∀ ts : Int, ∃ h m : Int, 1 ≤ h ∧ h ≤ 12 ∧ 0 ≤ m ∧ m < 60 ∧
      (timestampToMytStr ts = pad2 h ++ ":" ++ pad2 m ++ " " ++ "AM" ∨
       timestampToMytStr ts = pad2 h ++ ":" ++ pad2 m ++ " " ++ "PM")) := by
  refine ⟨?_, ?_, ?_⟩
  · simp only [formatToday, he]
    simp [prayerNamesOf, joinLines]
  · intro ts hts
    unfold timestampToMytStr
    rw [hts]
    rfl
  · intro ts
    exact fmtTimeOfDay_shape (mytSecondsOfDay ts)

/-- C7 witness: the timestamp -8280 falls at 05:42:00 MYT (1970-01-01) and
    renders exactly as `"05:42 AM"`. -/
theorem c7_today_report_witness : timestampToMytStr (-8280) = "05:42 AM" :=
  (c7_today_report 0 "X"
      ⟨some "Z", none, none, [⟨1, some "H", some (-8280), some 1, some 2, some 3,
        some 4, some 5⟩]⟩
      1 (some "H") (-8280) 1 2 3 4 5 rfl).2.1 (-8280) rfl

/-- A successful scan result is an element of the scanned list with a
    timestamp strictly after `now`. -/
theorem firstFutureAux_mem {now : Int} :
    ∀ {L : List (String × Option Int)} {l : String} {ts : Int},
      firstFutureAux now L = some (l, ts) → (l, some ts) ∈ L ∧ now < ts := by
  intro L
  induction L with
  | nil => intro l ts h; simp [firstFutureAux] at h
  | cons hd tl ih =>
    intro l ts h
    obtain ⟨label, o⟩ := hd
    cases o with
    | none =>
      have h' : firstFutureAux now tl = some (l, ts) := h
      obtain ⟨h1, h2⟩ := ih h'
      exact ⟨List.mem_cons_of_mem _ h1, h2⟩
    | some t =>
      by_cases ht : t > now
      · simp [firstFutureAux, ht] at h
        obtain ⟨rfl, rfl⟩ := h
        exact ⟨List.mem_cons_self _ _, ht⟩
      · simp [firstFutureAux, ht] at h
        obtain ⟨h1, h2⟩ := ih h
        exact ⟨List.mem_cons_of_mem _ h1, h2⟩

/-- When the scan finds nothing, every present timestamp is in the past. -/
theorem firstFutureAux_past_of_none {now : Int} :
    ∀ {L : List (String × Option Int)},
      firstFutureAux now L = none →
      ∀ t ∈ L.filterMap (fun lo => lo.2), t ≤ now := by
  intro L
  induction L with
  | nil => intro _ t ht; simp at ht
  | cons hd tl ih =>
    intro h t ht
    obtain ⟨label, o⟩ := hd
    cases o with
    | none =>
      have h' : firstFutureAux now tl = none := h
      exact ih h' t (by simpa using ht)
    | some t0 =>
      by_cases ht0 : t0 > now
      · simp [firstFutureAux, ht0] at h
      · simp [firstFutureAux, ht0] at h
        simp only [List.filterMap_cons] at ht
        rcases List.mem_cons.mp ht with rfl | hmem
        · omega
        · exact ih h t hmem

/-- When every present timestamp is in the past, the scan finds nothing. -/
theorem firstFutureAux_none_of_past {now : Int} :
    ∀ {L : List (String × Option Int)},
      (∀ t ∈ L.filterMap (fun lo => lo.2), t ≤ now) → firstFutureAux now L = none := by
  intro L h
  cases hf : firstFutureAux now L with
  | none => rfl
  | some lt =>
    obtain ⟨l, ts⟩ := lt
    obtain ⟨hmem, hlt⟩ := firstFutureAux_mem hf
    have hin : ts ∈ L.filterMap (fun lo => lo.2) :=
      List.mem_filterMap.mpr ⟨(l, some ts), hmem, rfl⟩
    have := h ts hin
    omega

/-- When some present timestamp is in the future, the scan finds a prayer. -/
theorem firstFutureAux_some_of_future {now : Int} {L : List (String × Option Int)}
    (h : ∃ t ∈ L.filterMap (fun lo => lo.2), now < t) :
    ∃ lt, firstFutureAux now L = some lt := by
  cases hf : firstFutureAux now L with
  | some lt => exact ⟨lt, rfl⟩
  | none =>
    obtain ⟨t, htm, hlt⟩ := h
    have := firstFutureAux_past_of_none hf t htm
    omega

/-- Under strictly-increasing present timestamps, the first future prayer in
    canonical order carries the minimal future timestamp. -/
theorem firstFutureAux_min {now : Int} :
    ∀ {L : List (String × Option Int)} {l : String} {ts : Int},
      List.Pairwise (· < ·) (L.filterMap (fun lo => lo.2)) →
      firstFutureAux now L = some (l, ts) →
      ∀ t ∈ L.filterMap (fun lo => lo.2), now < t → ts ≤ t := by
  intro L
  induction L with
  | nil => intro l ts _ h; simp [firstFutureAux] at h
  | cons hd tl ih =>
    intro l ts hp h t htm hlt
    obtain ⟨label, o⟩ := hd
    cases o with
    | none =>
      have h' : firstFutureAux now tl = some (l, ts) := h
      simp only [List.filterMap_cons] at hp htm
      exact ih hp h' t htm hlt
    | some t0 =>
      simp only [List.filterMap_cons] at hp htm
      rw [List.pairwise_cons] at hp
      by_cases ht0 : t0 > now
      · simp [firstFutureAux, ht0] at h
        obtain ⟨rfl, rfl⟩ := h
        rcases List.mem_cons.mp htm with rfl | hmem
        · exact le_refl _
        · exact le_of_lt (hp.1 t hmem)
      · simp [firstFutureAux, ht0] at h
        rcases List.mem_cons.mp htm with rfl | hmem
        · omega
        · exact ih hp.2 h t hmem hlt

/-- C3 (amended): with today's entry found, (a) when some present timestamp
    is in the future, the tool reports the first such prayer in canonical
    order, which under the monotonicity invariant carries the earliest
    future timestamp; (b) when all present timestamps have passed and
    tomorrow's entry has a present, nonzero dawn timestamp, the tool reports
    tomorrow's dawn with the "today passed" prefix; (c) when all present
    timestamps have passed and tomorrow's entry is absent or its dawn
    timestamp is absent or zero (the code treats a zero dawn as missing via
    truthiness), the tool returns the final fallback message. -/
theorem c3_next_prayer_selection (now : Int) (zoneArg : String)
    (entries : List DayEntry) (e : DayEntry)
    (he : findEntry entries (mytDay now) = some e) :
    ((∃ t ∈ presentTimes e, now < t) →
      ∃ l ts, firstFutureAux now (nextPrayerOrder e) = some (l, ts) ∧
        formatNext now zoneArg entries = nextPrayerMsg now l ts ∧
        (l, some ts) ∈ nextPrayerOrder e ∧ now < ts ∧
        (MonotoneDay e → ∀ t ∈ presentTimes e, now < t → ts ≤ t)) ∧
    ((∀ t ∈ presentTimes e, t ≤ now) →
      ∀ tm, findEntry entries (mytDay now + 1) = some tm →
        ∀ f, tm.fajr = some f → f ≠ 0 →
          formatNext now zoneArg entries = tomorrowFajrMsg now f) ∧
    ((∀ t ∈ presentTimes e, t ≤ now) →
      (findEntry entries (mytDay now + 1) = none ∨
       (∃ tm, findEntry entries (mytDay now + 1) = some tm ∧
          (tm.fajr = none ∨ tm.fajr = some 0))) →
      formatNext now zoneArg entries = noTomorrowMsg) := by
  refine ⟨?_, ?_, ?_⟩
  · intro hex
    obtain ⟨lt, hf⟩ := firstFutureAux_some_of_future (L := nextPrayerOrder e) hex
    obtain ⟨l, ts⟩ := lt
    obtain ⟨hmem, hlt⟩ := firstFutureAux_mem hf
    refine ⟨l, ts, hf, ?_, hmem, hlt, ?_⟩
    · simp [formatNext, he, hf]
    · intro hm t htm hlt2
      exact firstFutureAux_min hm hf t htm hlt2
  · intro hpast tm htm f hfa hf0
    have hnone : firstFutureAux now (nextPrayerOrder e) = none :=
      firstFutureAux_none_of_past hpast
    simp [formatNext, he, hnone, htm, hfa, hf0]
  · intro hpast hdisj
    have hnone : firstFutureAux now (nextPrayerOrder e) = none :=
      firstFutureAux_none_of_past hpast
    rcases hdisj with hno | ⟨tm, htm, hfa | hfa⟩
    · simp [formatNext, he, hnone, hno]
    · simp [formatNext, he, hnone, htm, hfa]
    · simp [formatNext, he, hnone, htm, hfa]

/-- C3 counterexample: today's entry exists (all timestamps absent, so all
    present ones have vacuously passed) and tomorrow's dawn timestamp is
    present with value 0; the claim says the tool reports tomorrow's dawn
    with the "today passed" prefix, but it returns the final fallback
    message, which is a different string. -/
theorem c3_counterexample_zero_dawn :
    formatNext 0 "SGR01"
        [⟨1, none, none, none, none, none, none, none⟩,
         ⟨2, none, some 0, none, none, none, none, none⟩]
      = noTomorrowMsg ∧
    noTomorrowMsg ≠ tomorrowFajrMsg 0 0 :=
  ⟨rfl, by decide⟩

/-- C3 witness: on a day whose dawn (100) and sunrise (200) are both in the
    future of `now = 0`, the tool reports dawn, the canonical-first future
    prayer. -/
theorem c3_next_prayer_selection_witness :
    formatNext 0 "X" [⟨1, none, some 100, some 200, none, none, none, none⟩]
      = nextPrayerMsg 0 "Subuh/Fajr" 100 := by
  obtain ⟨l, ts, hf, hfmt, -, -, -⟩ :=
    (c3_next_prayer_selection 0 "X"
        [⟨1, none, some 100, some 200, none, none, none, none⟩]
        ⟨1, none, some 100, some 200, none, none, none, none⟩ rfl).1
      ⟨100, by decide, by decide⟩
  have hval : firstFutureAux 0
      (nextPrayerOrder ⟨1, none, some 100, some 200, none, none, none, none⟩)
      = some ("Subuh/Fajr", 100) := rfl
  rw [hf] at hval
  injection hval with h'
  have hl : l = "Subuh/Fajr" := congrArg Prod.fst h'
  have hts : ts = 100 := congrArg Prod.snd h'
  subst hl
  subst hts
  exact hfmt
